import Mathlib

/-!
Verification of the telemetry transport and decoding layer of the
ABB-IRB-6600-Robotic-Simulator repository (the NoLimits 2 game-interface
package): the binary wire-protocol codecs (`telemetry_parser.py`,
`nl2_tcp_client.py`), the shared data model (`data_structures.py`), and the
delivery step of the streaming connector (`nlc2_connector.py`).

Modelling conventions
- Byte buffers are `List ℕ` (one entry per byte, values < 256 at call sites).
- IEEE-754 binary32 wire floats are decoded exactly into `ℚ`; a non-finite
  float (exponent field 255, i.e. NaN or an infinity) decodes to `none`.
  The Python code constructs a state from such a float and then rejects it
  in `is_valid`'s `np.isfinite` check, returning `None` from the decode; the
  model short-circuits at the field decode, which yields the same returned
  value (`none`) for every input.  Consequently all numeric fields of a
  constructed state are exact rationals and the finiteness component of
  `is_valid` is vacuously true in the model.
- Square roots: the source computes `magnitude() = sqrt(x²+y²+z²)` and
  compares magnitudes against constant thresholds.  The model tracks the
  squares (`magnitudeSq`) and compares against the squared thresholds, which
  is equivalent because `sqrt` is strictly monotone on nonnegative reals.
  The source's `speed` field (`velocity.magnitude()` on the UDP path, the
  raw wire float on the TCP path) is stored through the strictly monotone
  embedding `s ↦ s * |s|` (field `speedSq`), so every comparison or equality
  observation about `speed` translates exactly: `speed ☐ c ↔ speedSq ☐ c*|c|`,
  and `speed = 0 ↔ speedSq = 0`.
-/

set_option maxRecDepth 4000

namespace NL2

/-! ## Byte-buffer primitives

`struct.unpack` slicing is modelled with `List.getD`; every reader is applied
only after the source's explicit length guard, so all reads are in range. -/

/-- Little-endian unsigned 32-bit read at byte offset `i` (`struct` format
`<I`), as in the UDP header and payload of `telemetry_parser.py`. -/
def leU32 (d : List ℕ) (i : ℕ) : ℕ :=
  d.getD i 0 + 256 * d.getD (i + 1) 0 + 65536 * d.getD (i + 2) 0 +
    16777216 * d.getD (i + 3) 0

/-- Big-endian unsigned 16-bit read at byte offset `i` (`struct` format
`!H`), as in the TCP envelope of `nl2_tcp_client.py`. -/
def beU16 (d : List ℕ) (i : ℕ) : ℕ :=
  256 * d.getD i 0 + d.getD (i + 1) 0

/-- Big-endian unsigned 32-bit read at byte offset `i` (`struct` format
`!I`). -/
def beU32 (d : List ℕ) (i : ℕ) : ℕ :=
  16777216 * d.getD i 0 + 65536 * d.getD (i + 1) 0 + 256 * d.getD (i + 2) 0 +
    d.getD (i + 3) 0

/-- Two's-complement reinterpretation of a 32-bit word as a signed integer
(`struct` formats `<i` / `!i`). -/
def i32ofBits (n : ℕ) : ℤ :=
  if n < 2 ^ 31 then (n : ℤ) else (n : ℤ) - 2 ^ 32

/-- Exact value of an IEEE-754 binary32 bit pattern: `none` when the
exponent field is all ones (NaN or an infinity, the values `np.isfinite`
rejects), otherwise the exact rational value, including subnormals and
signed zeros (both modelled as `0`). -/
def f32val (n : ℕ) : Option ℚ :=
  let s : ℕ := n / 2 ^ 31 % 2
  let e : ℕ := n / 2 ^ 23 % 256
  let m : ℕ := n % 2 ^ 23
  if e = 255 then none
  else
    let mag : ℚ :=
      if e = 0 then (m : ℚ) / 2 ^ 149
      else ((2 ^ 23 + m : ℕ) : ℚ) * 2 ^ e / 2 ^ 150
    some (if s = 1 then -mag else mag)

/-- Little-endian binary32 read at byte offset `i` (`struct` format `<f`). -/
def readF32le (d : List ℕ) (i : ℕ) : Option ℚ :=
  f32val (leU32 d i)

/-- Big-endian binary32 read at byte offset `i` (`struct` format `!f`). -/
def readF32be (d : List ℕ) (i : ℕ) : Option ℚ :=
  f32val (beU32 d i)

/-- Big-endian signed 32-bit read at byte offset `i` (`struct` format `!i`). -/
def readI32be (d : List ℕ) (i : ℕ) : ℤ :=
  i32ofBits (beU32 d i)

/-- Little-endian 4-byte encoding of an unsigned 32-bit value (`struct.pack
'<I'`). -/
def leBytesU32 (n : ℕ) : List ℕ :=
  [n % 256, n / 2 ^ 8 % 256, n / 2 ^ 16 % 256, n / 2 ^ 24 % 256]

/-- Big-endian 2-byte encoding of an unsigned 16-bit value (`struct.pack
'!H'`). -/
def beBytesU16 (n : ℕ) : List ℕ :=
  [n / 2 ^ 8 % 256, n % 256]

/-- Big-endian 4-byte encoding of an unsigned 32-bit value (`struct.pack
'!I'`). -/
def beBytesU32 (n : ℕ) : List ℕ :=
  [n / 2 ^ 24 % 256, n / 2 ^ 16 % 256, n / 2 ^ 8 % 256, n % 256]

/-! ## Geometry primitives (`data_structures.py`) -/

/-- `Vector3D` of `data_structures.py` (lines 14-30), with exact rational
components in place of Python floats. -/
structure Vector3D where
  x : ℚ
  y : ℚ
  z : ℚ
deriving DecidableEq

/-- Square of `Vector3D.magnitude` (`data_structures.py` line 25-27).  The
source returns `sqrt(x²+y²+z²)`; the model keeps the radicand, and every
comparison of a magnitude against a constant threshold is performed on the
squares, which is equivalent since `sqrt` is strictly monotone. -/
def Vector3D.magnitudeSq (v : Vector3D) : ℚ :=
  v.x ^ 2 + v.y ^ 2 + v.z ^ 2

/-- `Quaternion` of `data_structures.py` (lines 33-55): note the constructor
field order is `(w, x, y, z)`. -/
structure Quaternion where
  w : ℚ
  x : ℚ
  y : ℚ
  z : ℚ
deriving DecidableEq

/-- Square of the quaternion norm computed in `Quaternion.normalize`
(`data_structures.py` line 47). -/
def Quaternion.normSq (q : Quaternion) : ℚ :=
  q.w ^ 2 + q.x ^ 2 + q.y ^ 2 + q.z ^ 2

/-- Rational square root, exact on rationals whose numerator and denominator
are perfect squares.  It is used only inside `Quaternion.normalize`'s
division branch; every evaluation of `normalize` performed in this
development happens at `normSq ∈ {0, 1}`, where this function agrees exactly
with the real square root the source computes. -/
def qSqrt (q : ℚ) : ℚ :=
  (Int.sqrt q.num : ℚ) / (Nat.sqrt q.den : ℚ)

/-- `Quaternion.normalize` (`data_structures.py` lines 45-55): the source
guard is `mag < 1e-10` with `mag = sqrt(normSq)`, modelled equivalently as
`normSq < (1e-10)²`; the degenerate branch returns the identity quaternion,
the other branch divides each component by the norm. -/
def Quaternion.normalize (q : Quaternion) : Quaternion :=
  if q.normSq < (1 / 10 ^ 10) ^ 2 then ⟨1, 0, 0, 0⟩
  else
    let mag := qSqrt q.normSq
    ⟨q.w / mag, q.x / mag, q.y / mag, q.z / mag⟩

/-! ## Telemetry frame (`data_structures.py`, `CoasterState`) -/

/-- `CoasterState` of `data_structures.py` (lines 84-110).  `speedSq` stores
the source's `speed` float through the strictly monotone embedding
`s ↦ s * |s|` (see the file header); `coaster_name` (a string never set by
either codec and never consulted by `is_valid`) is omitted. -/
structure CoasterState where
  timestamp : ℚ
  position : Vector3D
  velocity : Vector3D
  acceleration : Vector3D
  orientation : Quaternion
  g_force : Vector3D
  speedSq : ℚ
  view_mode : ℤ
  train_index : ℤ
deriving DecidableEq

/-- The strictly monotone embedding used for the `speed` field:
`signedSq s = s * |s|`, so `s ≤ c ↔ signedSq s ≤ signedSq c` and
`s = 0 ↔ signedSq s = 0`. -/
def signedSq (s : ℚ) : ℚ := s * |s|

/-- `CoasterState.is_valid` (`data_structures.py` lines 112-143): the
finiteness check on all numeric fields is vacuous in the model (fields are
exact rationals; non-finite wire floats already fail the decode, see the
file header); the bound checks mirror the source with magnitude comparisons
squared: `speed > 200` becomes `speedSq > 200 * 200` and
`g_force.magnitude() > 50` becomes `g_force.magnitudeSq > 50 * 50`. -/
def CoasterState.is_valid (st : CoasterState) : Bool :=
  if |st.position.x| > 10000 ∨ |st.position.y| > 10000 ∨ |st.position.z| > 10000 then
    false
  else if st.speedSq > 200 * 200 then false
  else if st.g_force.magnitudeSq > 50 * 50 then false
  else true

/-- `TelemetryMessage` of `data_structures.py` (lines 166-180). -/
structure TelemetryMessage where
  message_type : ℕ
  frame_number : ℕ
  state : Option CoasterState
deriving DecidableEq

/-- `TelemetryMessage.is_state_message` (`data_structures.py` lines
178-180): the source literally tests `message_type == 1` (even though the
UDP telemetry message type is `MSG_TELEMETRY = 4`). -/
def TelemetryMessage.is_state_message (m : TelemetryMessage) : Bool :=
  m.message_type == 1 && m.state.isSome

/-! ## UDP codec (`telemetry_parser.py`, class `TelemetryParser`) -/

namespace TelemetryParser

/-- Message type constants of `telemetry_parser.py` (lines 27-34). -/
def MSG_GET_VERSION : ℕ := 1

/-- `MSG_VERSION` (`telemetry_parser.py` line 28). -/
def MSG_VERSION : ℕ := 2

/-- `MSG_GET_TELEMETRY` (`telemetry_parser.py` line 29). -/
def MSG_GET_TELEMETRY : ℕ := 3

/-- `MSG_TELEMETRY` (`telemetry_parser.py` line 30). -/
def MSG_TELEMETRY : ℕ := 4

/-- `MIN_HEADER_SIZE` (`telemetry_parser.py` line 37). -/
def MIN_HEADER_SIZE : ℕ := 8

/-- The mutable state of a `TelemetryParser` instance: exactly the two
fields assigned in `__init__` (`telemetry_parser.py` lines 40-43). -/
structure ParserState where
  last_frame_number : ℤ
  dropped_frames : ℤ
deriving DecidableEq

/-- `TelemetryParser.__init__` (`telemetry_parser.py` lines 40-43). -/
def ParserState.init : ParserState :=
  { last_frame_number := -1, dropped_frames := 0 }

/-- The dropped-frame accounting of `parse_packet` (`telemetry_parser.py`
lines 63-69): when a frame number has been seen (`last_frame_number >= 0`)
and the new frame number exceeds `expected = last + 1`, the difference
`frame_number - expected` is added to the running total. -/
def checkDroppedFrames (ps : ParserState) (frame_number : ℕ) : ℤ :=
  if 0 ≤ ps.last_frame_number then
    let expected := ps.last_frame_number + 1
    if (frame_number : ℤ) ≠ expected ∧ expected < (frame_number : ℤ) then
      ps.dropped_frames + ((frame_number : ℤ) - expected)
    else ps.dropped_frames
  else ps.dropped_frames

/-- The sixteen little-endian floats and the view-mode word of the UDP
telemetry payload, as unpacked by `struct.unpack('<16fI', data[0:68])`
followed by the timestamp read `struct.unpack('<f', data[68:72])`
(`telemetry_parser.py` lines 129-155).  Fields `q1..q4` are the four
quaternion floats in wire order (payload offsets 36, 40, 44, 48). -/
structure UdpTelemetry where
  px : ℚ
  py : ℚ
  pz : ℚ
  vx : ℚ
  vy : ℚ
  vz : ℚ
  ax : ℚ
  ay : ℚ
  az : ℚ
  q1 : ℚ
  q2 : ℚ
  q3 : ℚ
  q4 : ℚ
  gx : ℚ
  gy : ℚ
  gz : ℚ
  view_mode : ℕ
  timestamp : ℚ
deriving DecidableEq

/-- Field extraction of `_parse_telemetry_data` (`telemetry_parser.py`
lines 129-155); `none` exactly when some wire float is non-finite (in the
source that state is then rejected by `is_valid`, see the file header). -/
def decodeUdpTelemetry (d : List ℕ) : Option UdpTelemetry :=
  match readF32le d 0, readF32le d 4, readF32le d 8, readF32le d 12,
        readF32le d 16, readF32le d 20, readF32le d 24, readF32le d 28,
        readF32le d 32, readF32le d 36, readF32le d 40, readF32le d 44,
        readF32le d 48, readF32le d 52, readF32le d 56, readF32le d 60,
        readF32le d 68 with
  | some px, some py, some pz, some vx, some vy, some vz, some ax, some ay,
    some az, some q1, some q2, some q3, some q4, some gx, some gy, some gz,
    some timestamp =>
      some ⟨px, py, pz, vx, vy, vz, ax, ay, az, q1, q2, q3, q4, gx, gy, gz,
            leU32 d 64, timestamp⟩
  | _, _, _, _, _, _, _, _, _, _, _, _, _, _, _, _, _ => none

/-- State construction of `_parse_telemetry_data` (`telemetry_parser.py`
lines 132-167): `Quaternion(unpacked[9], unpacked[10], unpacked[11],
unpacked[12])` feeds the four wire floats to the `(w, x, y, z)` constructor
and the result is normalized; `speed = velocity.magnitude()` appears as
`speedSq = velocity.magnitudeSq` (see the file header). -/
def stateOfUdp (f : UdpTelemetry) : CoasterState :=
  let velocity : Vector3D := ⟨f.vx, f.vy, f.vz⟩
  { timestamp := f.timestamp
    position := ⟨f.px, f.py, f.pz⟩
    velocity := velocity
    acceleration := ⟨f.ax, f.ay, f.az⟩
    orientation := (Quaternion.mk f.q1 f.q2 f.q3 f.q4).normalize
    g_force := ⟨f.gx, f.gy, f.gz⟩
    speedSq := velocity.magnitudeSq
    view_mode := (f.view_mode : ℤ)
    train_index := 0 }

/-- `TelemetryParser._parse_telemetry_data` (`telemetry_parser.py` lines
102-181): payloads shorter than 72 bytes fail, a constructed state failing
`is_valid` is rejected (both reported as `None`, never an exception). -/
def parseTelemetryData (d : List ℕ) : Option CoasterState :=
  if d.length < 72 then none
  else
    match decodeUdpTelemetry d with
    | none => none
    | some f =>
        let st := stateOfUdp f
        if st.is_valid then some st else none

/-- `TelemetryParser.parse_packet` (`telemetry_parser.py` lines 45-100).
The mutable `self` is passed explicitly: the result pairs the updated
parser state with the returned value.  For packets of at least 8 bytes the
header always unpacks, the drop accounting runs, `last_frame_number` is
overwritten with the packet's frame number, and a `TelemetryMessage` is
returned whose `state` is only populated for `MSG_TELEMETRY`; the
`MSG_VERSION` branch merely logs the version string and, like the
unhandled-type branch, returns a message without state. -/
def parse_packet (ps : ParserState) (data : List ℕ) :
    ParserState × Option TelemetryMessage :=
  if data.length < MIN_HEADER_SIZE then (ps, none)
  else
    let message_id := leU32 data 0
    let frame_number := leU32 data 4
    let ps1 : ParserState :=
      { last_frame_number := (frame_number : ℤ)
        dropped_frames := checkDroppedFrames ps frame_number }
    if message_id = MSG_TELEMETRY then
      (ps1, some ⟨message_id, frame_number, parseTelemetryData (data.drop 8)⟩)
    else if message_id = MSG_VERSION then
      (ps1, some ⟨message_id, frame_number, none⟩)
    else
      (ps1, some ⟨message_id, frame_number, none⟩)

/-- `TelemetryParser.create_request_telemetry_packet` (`telemetry_parser.py`
lines 202-210): `struct.pack('<II', MSG_GET_TELEMETRY, 0)`. -/
def create_request_telemetry_packet : List ℕ :=
  leBytesU32 MSG_GET_TELEMETRY ++ leBytesU32 0

/-- `TelemetryParser.create_version_request_packet` (`telemetry_parser.py`
lines 212-219): `struct.pack('<II', MSG_GET_VERSION, 0)`. -/
def create_version_request_packet : List ℕ :=
  leBytesU32 MSG_GET_VERSION ++ leBytesU32 0

end TelemetryParser

/-! ## Streaming connector delivery step (`nlc2_connector.py`, class
`NLC2Connector`)

Only the sequential data path of the receive loop is modelled: the handling
of one received datagram (lines 196-218).  Socket lifecycle, thread
scheduling and timeouts are outside the shallow embedding.  The delivery
queue `Queue(maxsize=100)` (line 66) is modelled as a list with the head as
the oldest element, matching FIFO `put_nowait`/`get_nowait` order. -/

namespace NLC2Connector

/-- The queue capacity fixed at construction (`nlc2_connector.py` line 66:
`Queue(maxsize=100)`). -/
def QUEUE_CAPACITY : ℕ := 100

/-- The enqueue step of the receive loop (`nlc2_connector.py` lines
202-211): `put_nowait` succeeds while the queue is below capacity; on a
full queue the `Full` exception is caught, `get_nowait` evicts the oldest
item, and the new state is enqueued.  (The inner bare `except` only guards
against concurrent consumers; with no concurrent consumer, as modelled
here, the evict-then-insert path always succeeds.) -/
def enqueueDropOldest (queue : List CoasterState) (st : CoasterState) :
    List CoasterState :=
  if queue.length < QUEUE_CAPACITY then queue ++ [st]
  else queue.drop 1 ++ [st]

/-- The connector state touched by one receive-loop iteration: the parser
state, the delivery queue, and the received-packet counter
(`nlc2_connector.py` lines 55, 66, 72). -/
structure ReceiveState where
  parserState : TelemetryParser.ParserState
  state_queue : List CoasterState
  packets_received : ℕ
deriving DecidableEq

/-- Handling of one datagram by `NLC2Connector._receive_loop`
(`nlc2_connector.py` lines 192-218): increment the received-packet counter,
parse via `self.parser`, and only when
`message and message.is_state_message() and message.state` holds enqueue
the state (the registered callback, not modelled, is invoked under exactly
the same condition, lines 213-218).  `last_state_time` (wall-clock arrival
time, line 200) is likewise recorded only under that condition. -/
def receiveDatagram (rs : ReceiveState) (data : List ℕ) : ReceiveState :=
  let pr := rs.packets_received + 1
  match TelemetryParser.parse_packet rs.parserState data with
  | (ps1, some m) =>
      if m.is_state_message then
        match m.state with
        | some st => ⟨ps1, enqueueDropOldest rs.state_queue st, pr⟩
        | none => ⟨ps1, rs.state_queue, pr⟩
      else ⟨ps1, rs.state_queue, pr⟩
  | (ps1, none) => ⟨ps1, rs.state_queue, pr⟩

end NLC2Connector

/-! ## TCP codec (`nl2_tcp_client.py`, class `NL2TelemetryClient`) -/

namespace NL2TelemetryClient

/-- Byte value of the magic start marker `b'N'` (`nl2_tcp_client.py` line
25). -/
def MAGIC_START : ℕ := 78

/-- Byte value of the magic end marker `b'L'` (`nl2_tcp_client.py` line
26). -/
def MAGIC_END : ℕ := 76

/-- `MSG_GET_VERSION` (`nl2_tcp_client.py` line 30). -/
def MSG_GET_VERSION : ℕ := 3

/-- `MSG_GET_TELEMETRY` (`nl2_tcp_client.py` line 31). -/
def MSG_GET_TELEMETRY : ℕ := 5

/-- `REPLY_TELEMETRY` (`nl2_tcp_client.py` line 37). -/
def REPLY_TELEMETRY : ℕ := 6

/-- The parsed TCP envelope returned by `_parse_message`
(`nl2_tcp_client.py` lines 150-155). -/
structure RawMessage where
  type_id : ℕ
  request_id : ℕ
  data_size : ℕ
  data : List ℕ
deriving DecidableEq

/-- `NL2TelemetryClient._build_message` (`nl2_tcp_client.py` lines 94-122):
`struct.pack('!cHIH', b'N', type_id, request_id, len(data))` followed by the
payload and `b'L'`. -/
def build_message (type_id request_id : ℕ) (data : List ℕ) : List ℕ :=
  [MAGIC_START] ++ beBytesU16 type_id ++ beBytesU32 request_id ++
    beBytesU16 data.length ++ data ++ [MAGIC_END]

/-- `NL2TelemetryClient._parse_message` (`nl2_tcp_client.py` lines 124-158):
fail below 10 bytes or on marker mismatch (first byte `'N'`, last byte
`'L'`), then unpack `'!HIH'` from bytes 1..8 and slice the payload
`data[9:9+data_size]` (like the Python slice, `take` truncates at the end of
the buffer). -/
def parse_message (d : List ℕ) : Option RawMessage :=
  if d.length < 10 then none
  else if d.getD 0 0 ≠ MAGIC_START ∨ d.getD (d.length - 1) 0 ≠ MAGIC_END then none
  else
    some { type_id := beU16 d 1
           request_id := beU32 d 3
           data_size := beU16 d 7
           data := (d.drop 9).take (beU16 d 7) }

/-- The nineteen values unpacked by
`struct.unpack('!iiiiiiiifffffffffff', data[:76])` in
`_parse_telemetry_data` (`nl2_tcp_client.py` lines 198-212): eight signed
integers, then speed, position, the quaternion in `(x, y, z, w)` wire
order, and the g-force vector. -/
structure TcpTelemetry where
  state_flags : ℤ
  rendered_frame : ℤ
  view_mode : ℤ
  current_coaster : ℤ
  coaster_style_id : ℤ
  current_train : ℤ
  current_car : ℤ
  current_seat : ℤ
  speed : ℚ
  px : ℚ
  py : ℚ
  pz : ℚ
  qx : ℚ
  qy : ℚ
  qz : ℚ
  qw : ℚ
  gx : ℚ
  gy : ℚ
  gz : ℚ
deriving DecidableEq

/-- Field extraction of `_parse_telemetry_data` (`nl2_tcp_client.py` lines
198-212); `none` exactly when some wire float is non-finite (in the source
that state is then rejected by `is_valid`, see the file header). -/
def decodeTcpTelemetry (d : List ℕ) : Option TcpTelemetry :=
  match readF32be d 32, readF32be d 36, readF32be d 40, readF32be d 44,
        readF32be d 48, readF32be d 52, readF32be d 56, readF32be d 60,
        readF32be d 64, readF32be d 68, readF32be d 72 with
  | some speed, some px, some py, some pz, some qx, some qy, some qz, some qw,
    some gx, some gy, some gz =>
      some ⟨readI32be d 0, readI32be d 4, readI32be d 8, readI32be d 12,
            readI32be d 16, readI32be d 20, readI32be d 24, readI32be d 28,
            speed, px, py, pz, qx, qy, qz, qw, gx, gy, gz⟩
  | _, _, _, _, _, _, _, _, _, _, _ => none

/-- State construction of `_parse_telemetry_data` (`nl2_tcp_client.py`
lines 219-238): `timestamp = rendered_frame / 60.0`, `velocity =
Vector3D(0, 0, speed)`, `acceleration = g_force * 9.81` componentwise,
`orientation = Quaternion(quat_w, quat_x, quat_y, quat_z)` (not
normalized on this path), and `speed` stored through the `signedSq`
embedding (see the file header). -/
def stateOfTcp (f : TcpTelemetry) : CoasterState :=
  { timestamp := (f.rendered_frame : ℚ) / 60
    position := ⟨f.px, f.py, f.pz⟩
    velocity := ⟨0, 0, f.speed⟩
    acceleration := ⟨f.gx * (981 / 100), f.gy * (981 / 100), f.gz * (981 / 100)⟩
    orientation := ⟨f.qw, f.qx, f.qy, f.qz⟩
    g_force := ⟨f.gx, f.gy, f.gz⟩
    speedSq := signedSq f.speed
    view_mode := f.view_mode
    train_index := f.current_train }

/-- `NL2TelemetryClient._parse_telemetry_data` (`nl2_tcp_client.py` lines
160-247): payloads shorter than 76 bytes fail, only the first 76 bytes are
unpacked, and line 240 returns the state only if it passes `is_valid`. -/
def parseTelemetryData (d : List ℕ) : Option CoasterState :=
  if d.length < 76 then none
  else
    match decodeTcpTelemetry d with
    | none => none
    | some f =>
        let st := stateOfTcp f
        if st.is_valid then some st else none

end NL2TelemetryClient

/-! ## Concrete wire inputs and frames used to settle the claims -/

/-- An 8-byte UDP header, `struct.pack('<II', message_id, frame_number)`:
the encoding side of the little-endian UDP wire format, of which
`create_request_telemetry_packet` is the instance at `(3, 0)` and
`create_version_request_packet` the instance at `(1, 0)`. -/
def udpHeader (message_id frame_number : ℕ) : List ℕ :=
  leBytesU32 message_id ++ leBytesU32 frame_number

/-- Feed a sequence of frame numbers through `parse_packet` as minimal
8-byte telemetry-typed packets, threading the parser state. -/
def feedFrames (ps : TelemetryParser.ParserState) (fns : List ℕ) :
    TelemetryParser.ParserState :=
  fns.foldl
    (fun s fn =>
      (TelemetryParser.parse_packet s (udpHeader TelemetryParser.MSG_TELEMETRY fn)).1)
    ps

/-- The zero vector. -/
def zeroVec : Vector3D := ⟨0, 0, 0⟩

/-- The identity quaternion `(1, 0, 0, 0)`. -/
def idQuat : Quaternion := ⟨1, 0, 0, 0⟩

/-- The frame decoded from an all-zero 72-byte UDP telemetry payload: all
vectors zero, the zero quaternion normalized to the identity, speed zero. -/
def zeroUdpState : CoasterState :=
  ⟨0, zeroVec, zeroVec, zeroVec, idQuat, zeroVec, 0, 0, 0⟩

/-- The frame decoded from an all-zero 76-byte TCP telemetry payload (the
TCP path does not normalize the quaternion, so the orientation stays
`(0, 0, 0, 0)`). -/
def zeroTcpState : CoasterState :=
  ⟨0, zeroVec, zeroVec, zeroVec, ⟨0, 0, 0, 0⟩, zeroVec, 0, 0, 0⟩

/-- A 72-byte UDP telemetry payload whose four quaternion wire floats are
`(1.0, 0.0, 0.0, 0.0)` (bytes 36..39 hold the binary32 encoding of `1.0`,
little-endian `[0x00, 0x00, 0x80, 0x3F]`) and every other field is zero. -/
def quatPayload : List ℕ :=
  List.replicate 36 0 ++ [0, 0, 128, 63] ++ List.replicate 32 0

/-- A 72-byte UDP telemetry payload with `position.x = 1000000.0` (binary32
little-endian `[0x00, 0x24, 0x74, 0x49]`) and every other field zero (hence
in range). -/
def bigPosPayload : List ℕ :=
  [0, 36, 116, 73] ++ List.replicate 68 0

/-- A complete UDP telemetry datagram: header `(MSG_TELEMETRY, frame 1)`
followed by the all-zero 72-byte telemetry payload, which decodes to the
valid frame `zeroUdpState`. -/
def telemetryDatagram : List ℕ :=
  udpHeader TelemetryParser.MSG_TELEMETRY 1 ++ List.replicate 72 0

/-- A frame whose `position.x` is `1000000` while every other field is in
range (the bounds-check example of the spec, with the field values of the
repository's own validity unit test). -/
def badPosState : CoasterState :=
  ⟨1, ⟨1000000, 50, 200⟩, ⟨10, 5, 2⟩, ⟨1, 1 / 2, 1 / 10⟩, idQuat, ⟨0, 0, 1⟩,
    signedSq 11, 0, 0⟩

/-! ## Evaluation lemmas

Concrete evaluations of the model.  `Rat` arithmetic in Lean is irreducible
at default transparency, so these are settled by `decide` under
`with_unfolding_all`; the proofs are still plain kernel-checked
`Decidable.decide` evaluations of the executable definitions. -/

theorem udp_zero_parse :
    TelemetryParser.parseTelemetryData (List.replicate 72 0) = some zeroUdpState := by
  with_unfolding_all decide

theorem tcp_zero_parse :
    NL2TelemetryClient.parseTelemetryData (List.replicate 76 0) = some zeroTcpState := by
  with_unfolding_all decide

theorem quat_parse :
    TelemetryParser.parseTelemetryData quatPayload = some zeroUdpState := by
  with_unfolding_all decide

/-! ## Structural lemmas about the codecs -/

theorem parse_packet_fst (ps : TelemetryParser.ParserState) (d : List ℕ)
    (h : 8 ≤ d.length) :
    (TelemetryParser.parse_packet ps d).1 =
      ⟨(leU32 d 4 : ℤ), TelemetryParser.checkDroppedFrames ps (leU32 d 4)⟩ := by
  unfold TelemetryParser.parse_packet
  rw [if_neg (by show ¬ d.length < 8; omega)]
  dsimp only
  split
  · rfl
  · split <;> rfl

theorem parse_packet_isSome (ps : TelemetryParser.ParserState) (d : List ℕ)
    (h : 8 ≤ d.length) :
    ((TelemetryParser.parse_packet ps d).2).isSome = true := by
  unfold TelemetryParser.parse_packet
  rw [if_neg (by show ¬ d.length < 8; omega)]
  dsimp only
  split
  · rfl
  · split <;> rfl

theorem checkDroppedFrames_of_nonneg (ps : TelemetryParser.ParserState)
    (fn : ℕ) (h : 0 ≤ ps.last_frame_number) :
    TelemetryParser.checkDroppedFrames ps fn =
      (if ps.last_frame_number + 1 < (fn : ℤ)
       then ps.dropped_frames + ((fn : ℤ) - ps.last_frame_number - 1)
       else ps.dropped_frames) := by
  unfold TelemetryParser.checkDroppedFrames
  rw [if_pos h]
  rcases lt_or_ge (ps.last_frame_number + 1) (fn : ℤ) with hlt | hge
  · rw [if_pos ⟨by omega, hlt⟩, if_pos hlt]
    ring_nf
  · rw [if_neg (by rintro ⟨hne, hlt2⟩; omega), if_neg (by omega)]

theorem udp_parse_inv (d : List ℕ) (st : CoasterState)
    (h : TelemetryParser.parseTelemetryData d = some st) :
    ∃ f, TelemetryParser.decodeUdpTelemetry d = some f ∧
      st = TelemetryParser.stateOfUdp f ∧ st.is_valid = true := by
  unfold TelemetryParser.parseTelemetryData at h
  split at h
  · exact absurd h (by simp)
  · cases hdec : TelemetryParser.decodeUdpTelemetry d with
    | none => rw [hdec] at h; exact absurd h (by simp)
    | some f =>
        rw [hdec] at h
        dsimp only at h
        split at h
        · rename_i hval
          injection h with h
          exact ⟨f, rfl, h.symm, h ▸ hval⟩
        · exact absurd h (by simp)

theorem tcp_parse_inv (d : List ℕ) (st : CoasterState)
    (h : NL2TelemetryClient.parseTelemetryData d = some st) :
    ∃ f, NL2TelemetryClient.decodeTcpTelemetry d = some f ∧
      st = NL2TelemetryClient.stateOfTcp f ∧ st.is_valid = true := by
  unfold NL2TelemetryClient.parseTelemetryData at h
  split at h
  · exact absurd h (by simp)
  · cases hdec : NL2TelemetryClient.decodeTcpTelemetry d with
    | none => rw [hdec] at h; exact absurd h (by simp)
    | some f =>
        rw [hdec] at h
        dsimp only at h
        split at h
        · rename_i hval
          injection h with h
          exact ⟨f, rfl, h.symm, h ▸ hval⟩
        · exact absurd h (by simp)

/-! ## Claims -/

/-- C1: the claim states that every datagram decoding to a valid telemetry
frame is enqueued (and delivered to the callback) by the receive loop.  The
code withholds every such frame: `telemetryDatagram` (header `MSG_TELEMETRY
= 4`, frame 1, all-zero 72-byte payload) parses to a message of type 4
carrying the valid frame `zeroUdpState`, yet `is_state_message` tests
`message_type == 1`, so the delivery guard of `_receive_loop` is false and
the queue stays empty (and the callback, invoked under the same guard, is
never called).  The repository's own unit test
`test_parse_telemetry_packet` asserts `is_state_message()` on this type-4
message, so the code contradicts its own test suite: a code bug. -/
theorem C1_receive_loop_withholds_valid_frames :
    (TelemetryParser.parse_packet .init telemetryDatagram).2 =
        some ⟨TelemetryParser.MSG_TELEMETRY, 1, some zeroUdpState⟩ ∧
      zeroUdpState.is_valid = true ∧
      TelemetryMessage.is_state_message
          ⟨TelemetryParser.MSG_TELEMETRY, 1, some zeroUdpState⟩ = false ∧
      NLC2Connector.receiveDatagram ⟨.init, [], 0⟩ telemetryDatagram =
        ⟨⟨1, 0⟩, [], 1⟩ := by
  with_unfolding_all decide

/-- C2 counterexample: the claim says the UDP decoder assigns the first of
the four wire quaternion floats to `x` and the last to `w`.  On
`quatPayload` the wire floats are `(1, 0, 0, 0)` (first = 1 at offset 36,
last = 0 at offset 48) and the decoded orientation is `(w, x, y, z) =
(1, 0, 0, 0)`: the first float landed in `w` (normalization divides by the
positive norm 1, so it cannot have moved a zero into `w` or a one out of
`x`), refuting the claimed `(x, y, z, w)` wire order. -/
theorem C2_quaternion_order_counterexample :
    TelemetryParser.parseTelemetryData quatPayload = some zeroUdpState ∧
      readF32le quatPayload 36 = some 1 ∧
      readF32le quatPayload 48 = some 0 ∧
      zeroUdpState.orientation.w = 1 ∧
      zeroUdpState.orientation.x = 0 := by
  refine ⟨quat_parse, ?_, ?_, ?_, ?_⟩ <;> with_unfolding_all decide

/-- C2 amended: in the UDP raw telemetry payload the four quaternion floats
are stored on the wire in `(w, x, y, z)` order: the decoder assigns the
first of the four quaternion floats (payload offset 36) to the orientation's
`w` component, the second to `x`, the third to `y`, and the fourth (last) to
`z`, then normalizes. -/
theorem C2_quaternion_order_amended :
    ∀ (d : List ℕ) (st : CoasterState),
      TelemetryParser.parseTelemetryData d = some st →
      ∃ f : TelemetryParser.UdpTelemetry,
        TelemetryParser.decodeUdpTelemetry d = some f ∧
        readF32le d 36 = some f.q1 ∧ readF32le d 40 = some f.q2 ∧
        readF32le d 44 = some f.q3 ∧ readF32le d 48 = some f.q4 ∧
        st.orientation = Quaternion.normalize ⟨f.q1, f.q2, f.q3, f.q4⟩ := by
  intro d st h
  obtain ⟨f, hdec, hst, _⟩ := udp_parse_inv d st h
  refine ⟨f, hdec, ?_, ?_, ?_, ?_, by rw [hst]; rfl⟩ <;>
    · unfold TelemetryParser.decodeUdpTelemetry at hdec
      split at hdec
      · rename_i heq
        injection hdec with hdec
        subst hdec
        simp_all
      · exact absurd hdec (by simp)

/-- C2 witness: the amended theorem applied at the concrete payload
`quatPayload`. -/
theorem C2_quaternion_order_amended_witness :
    ∃ f : TelemetryParser.UdpTelemetry,
      TelemetryParser.decodeUdpTelemetry quatPayload = some f ∧
      readF32le quatPayload 36 = some f.q1 ∧ readF32le quatPayload 40 = some f.q2 ∧
      readF32le quatPayload 44 = some f.q3 ∧ readF32le quatPayload 48 = some f.q4 ∧
      zeroUdpState.orientation = Quaternion.normalize ⟨f.q1, f.q2, f.q3, f.q4⟩ :=
  C2_quaternion_order_amended quatPayload zeroUdpState quat_parse

/-- C3 counterexample: the claim says frame numbers arriving `5, 3, 6` add
nothing to the dropped-frame total; the code adds 2 (after the rewind to 3,
the jump from 3 to 6 exceeds `last + 1 = 4` and counts `6 - 4 = 2`). -/
theorem C3_gap_counterexample :
    (feedFrames .init [5, 3, 6]).dropped_frames = 2 ∧
      ((2 : ℤ) ≠ 0) := by
  refine ⟨by decide, by decide⟩

/-- C3 amended: once a frame number has been seen (the initial sentinel
`last_frame_number = -1` disables accounting for the first packet), parsing
a packet adds `newCounter - lastCounter - 1` to the dropped-frame total
exactly when the new counter exceeds the last-seen counter plus one, and a
non-monotonic or repeated counter adds nothing; frame numbers arriving
`1, 2, 3, 7` add exactly 3, and `5, 3, 6` add exactly 2 (the rewind to 3
adds nothing, but the jump from 3 to 6 adds 2, because gap detection
compares against the last-seen counter, not the maximum seen). -/
theorem C3_gap_accounting :
    (∀ (ps : TelemetryParser.ParserState) (d : List ℕ),
        8 ≤ d.length → 0 ≤ ps.last_frame_number →
        (TelemetryParser.parse_packet ps d).1.dropped_frames =
          (if ps.last_frame_number + 1 < (leU32 d 4 : ℤ)
           then ps.dropped_frames + ((leU32 d 4 : ℤ) - ps.last_frame_number - 1)
           else ps.dropped_frames)) ∧
      (feedFrames .init [1, 2, 3, 7]).dropped_frames = 3 ∧
      (feedFrames .init [5, 3, 6]).dropped_frames = 2 := by
  refine ⟨?_, by decide, by decide⟩
  intro ps d hlen hnn
  rw [parse_packet_fst ps d hlen]
  exact checkDroppedFrames_of_nonneg ps (leU32 d 4) hnn

/-- C3 witness: the per-step accounting rule applied at a concrete state
and packet: from `last_frame_number = 3`, a packet with frame number 6 puts
the dropped-frame total at `0 + (6 - 3 - 1) = 2`. -/
theorem C3_gap_accounting_witness :
    8 ≤ (udpHeader 4 6).length ∧ (0 : ℤ) ≤ (3 : ℤ) ∧
      (TelemetryParser.parse_packet ⟨3, 0⟩ (udpHeader 4 6)).1.dropped_frames =
        (if (3 : ℤ) + 1 < (leU32 (udpHeader 4 6) 4 : ℤ)
         then (0 : ℤ) + ((leU32 (udpHeader 4 6) 4 : ℤ) - 3 - 1)
         else 0) :=
  ⟨by decide, by decide, C3_gap_accounting.1 ⟨3, 0⟩ (udpHeader 4 6) (by decide) (by decide)⟩

/-- C4: every frame returned by either codec satisfies the validity
predicate `is_valid` (positions bounded by 10000, speed by 200, g-force
magnitude by 50 — finiteness holds by construction, since non-finite wire
floats already fail the decode); and a decoded frame violating it is
discarded: `badPosState` (`position.x = 1000000`, every other field in
range) fails `is_valid`, and the 72-byte payload `bigPosPayload` encoding
exactly that position is rejected by the UDP decode. -/
theorem C4_validity_invariant :
    (∀ (d : List ℕ) (st : CoasterState),
        TelemetryParser.parseTelemetryData d = some st → st.is_valid = true) ∧
      (∀ (d : List ℕ) (st : CoasterState),
        NL2TelemetryClient.parseTelemetryData d = some st → st.is_valid = true) ∧
      badPosState.is_valid = false ∧
      TelemetryParser.parseTelemetryData bigPosPayload = none := by
  refine ⟨?_, ?_, ?_, ?_⟩
  · intro d st h
    obtain ⟨f, _, _, hv⟩ := udp_parse_inv d st h
    exact hv
  · intro d st h
    obtain ⟨f, _, _, hv⟩ := tcp_parse_inv d st h
    exact hv
  · with_unfolding_all decide
  · with_unfolding_all decide

/-- C4 witness: both codec branches applied at concrete payloads — the
all-zero 72-byte UDP payload and the all-zero 76-byte TCP payload decode to
frames the theorem certifies valid. -/
theorem C4_validity_invariant_witness :
    TelemetryParser.parseTelemetryData (List.replicate 72 0) = some zeroUdpState ∧
      zeroUdpState.is_valid = true ∧
      NL2TelemetryClient.parseTelemetryData (List.replicate 76 0) = some zeroTcpState ∧
      zeroTcpState.is_valid = true :=
  ⟨udp_zero_parse, C4_validity_invariant.1 _ _ udp_zero_parse,
    tcp_zero_parse, C4_validity_invariant.2.1 _ _ tcp_zero_parse⟩

/-- C5: the UDP telemetry payload decode returns `none` (a non-fatal
failure — the model has no exceptional outcome, matching the source's
logged `return None`) for every payload shorter than 72 bytes, and the
all-zero 72-byte payload decodes to `zeroUdpState`, which passes the
validity check and has speed zero (`speedSq = 0` iff the source's
`speed = 0`, see the file header). -/
theorem C5_udp_payload_length :
    (∀ d : List ℕ, d.length < 72 → TelemetryParser.parseTelemetryData d = none) ∧
      TelemetryParser.parseTelemetryData (List.replicate 72 0) = some zeroUdpState ∧
      zeroUdpState.is_valid = true ∧
      zeroUdpState.speedSq = 0 := by
  refine ⟨?_, udp_zero_parse, by with_unfolding_all decide, by with_unfolding_all decide⟩
  intro d h
  unfold TelemetryParser.parseTelemetryData
  rw [if_pos h]

/-- C5 witness: the short-payload branch applied at a concrete 71-byte
payload. -/
theorem C5_udp_payload_length_witness :
    (List.replicate 71 (0 : ℕ)).length < 72 ∧
      TelemetryParser.parseTelemetryData (List.replicate 71 0) = none :=
  ⟨by decide, C5_udp_payload_length.1 (List.replicate 71 0) (by decide)⟩

/-- C6: the enqueue step of the receive loop at a full queue (100 frames,
the fixed capacity) with no concurrent consumer: the oldest queued frame
(the head) is evicted, the new frame is appended, the queue stays at 100,
and the newest frame is present afterwards.  (The operation is a pure
`get_nowait`/`put_nowait` pair, never a blocking `put`.) -/
theorem C6_queue_overflow_drop_oldest (q : List CoasterState) (st : CoasterState)
    (h : q.length = 100) :
    NLC2Connector.enqueueDropOldest q st = q.drop 1 ++ [st] ∧
      st ∈ NLC2Connector.enqueueDropOldest q st ∧
      (NLC2Connector.enqueueDropOldest q st).length = 100 := by
  have hfull : ¬ q.length < NLC2Connector.QUEUE_CAPACITY := by
    show ¬ q.length < 100
    omega
  unfold NLC2Connector.enqueueDropOldest
  rw [if_neg hfull]
  refine ⟨rfl, List.mem_append_right _ (List.mem_singleton.mpr rfl), ?_⟩
  simp [h]

/-- C6 witness: the overflow step applied to a concrete full queue of 100
frames. -/
theorem C6_queue_overflow_drop_oldest_witness :
    (List.replicate 100 zeroUdpState).length = 100 ∧
      (NLC2Connector.enqueueDropOldest (List.replicate 100 zeroUdpState) zeroTcpState =
          (List.replicate 100 zeroUdpState).drop 1 ++ [zeroTcpState] ∧
        zeroTcpState ∈
          NLC2Connector.enqueueDropOldest (List.replicate 100 zeroUdpState) zeroTcpState ∧
        (NLC2Connector.enqueueDropOldest (List.replicate 100 zeroUdpState)
            zeroTcpState).length = 100) :=
  ⟨by simp, C6_queue_overflow_drop_oldest _ _ (by simp)⟩

/-- C9: `normalize` returns exactly the identity quaternion whenever the
norm is below `1e-10` — stated on the square, `normSq < (1e-10)²`, which is
equivalent since the norm is nonnegative — so the division branch is never
taken with a near-zero denominator. -/
theorem C9_normalize_degenerate_guard (q : Quaternion)
    (h : q.normSq < (1 / 10 ^ 10) ^ 2) :
    q.normalize = ⟨1, 0, 0, 0⟩ := by
  unfold Quaternion.normalize
  rw [if_pos h]

/-- C9 witness: the guard applied at the zero quaternion,
`Quaternion(0,0,0,0).normalize() = (1,0,0,0)`. -/
theorem C9_normalize_degenerate_guard_witness :
    Quaternion.normSq ⟨0, 0, 0, 0⟩ < (1 / 10 ^ 10) ^ 2 ∧
      Quaternion.normalize ⟨0, 0, 0, 0⟩ = ⟨1, 0, 0, 0⟩ :=
  ⟨by with_unfolding_all decide,
    C9_normalize_degenerate_guard ⟨0, 0, 0, 0⟩ (by with_unfolding_all decide)⟩

/-- C10: for every packet of at least 8 bytes, `parse_packet` succeeds
(returns a message) and its resulting parser state is exactly
`⟨frame_number, checkDroppedFrames ps frame_number⟩` — the last-seen frame
number is overwritten with the packet's frame-number field regardless of
message type, and nothing besides the two fields of the parser state (the
baseline and the drop total, per the gap rule) changes; in particular
non-telemetry packets also move the frame-gap baseline. -/
theorem C10_parse_packet_state_effect :
    ∀ (ps : TelemetryParser.ParserState) (d : List ℕ), 8 ≤ d.length →
      (TelemetryParser.parse_packet ps d).1 =
        ⟨(leU32 d 4 : ℤ), TelemetryParser.checkDroppedFrames ps (leU32 d 4)⟩ ∧
      ((TelemetryParser.parse_packet ps d).2).isSome = true := by
  intro ps d h
  exact ⟨parse_packet_fst ps d h, parse_packet_isSome ps d h⟩

/-- C10 witness: a non-telemetry packet (a version reply, type 2, frame 9)
moves the baseline from 5 to 9 and, per the gap rule, adds 3 to the drop
total. -/
theorem C10_parse_packet_state_effect_witness :
    8 ≤ (udpHeader 2 9).length ∧
      ((TelemetryParser.parse_packet ⟨5, 0⟩ (udpHeader 2 9)).1 =
          ⟨(leU32 (udpHeader 2 9) 4 : ℤ),
            TelemetryParser.checkDroppedFrames ⟨5, 0⟩ (leU32 (udpHeader 2 9) 4)⟩ ∧
        ((TelemetryParser.parse_packet ⟨5, 0⟩ (udpHeader 2 9)).2).isSome = true) :=
  ⟨by decide, C10_parse_packet_state_effect ⟨5, 0⟩ (udpHeader 2 9) (by decide)⟩

/-- C7: both wire formats round-trip the identifying header fields.  TCP
(big-endian envelope): for every `type_id < 2^16` and `request_id < 2^32`,
parsing a built request message (empty payload, as every request the client
sends) recovers both exactly.  UDP (little-endian header): for every
`message_id < 2^32` and `frame_number < 2^32` (which covers every `u16`
type id), parsing an encoded 8-byte header recovers message type and frame
number exactly, from any parser state. -/
theorem C7_request_roundtrip :
    (∀ t r : ℕ, t < 2 ^ 16 → r < 2 ^ 32 →
        NL2TelemetryClient.parse_message (NL2TelemetryClient.build_message t r []) =
          some ⟨t, r, 0, []⟩) ∧
      (∀ mid fn : ℕ, mid < 2 ^ 32 → fn < 2 ^ 32 →
        ∀ ps : TelemetryParser.ParserState,
          (TelemetryParser.parse_packet ps (udpHeader mid fn)).2 =
            some ⟨mid, fn, none⟩) := by
  constructor
  · intro t r ht hr
    have hb : NL2TelemetryClient.build_message t r [] =
        [78, t / 2 ^ 8 % 256, t % 256, r / 2 ^ 24 % 256, r / 2 ^ 16 % 256,
          r / 2 ^ 8 % 256, r % 256, 0, 0, 76] := rfl
    have key : NL2TelemetryClient.parse_message
        [78, t / 2 ^ 8 % 256, t % 256, r / 2 ^ 24 % 256, r / 2 ^ 16 % 256,
          r / 2 ^ 8 % 256, r % 256, 0, 0, 76] =
        some ⟨256 * (t / 2 ^ 8 % 256) + t % 256,
          16777216 * (r / 2 ^ 24 % 256) + 65536 * (r / 2 ^ 16 % 256) +
            256 * (r / 2 ^ 8 % 256) + r % 256, 0, []⟩ := rfl
    have ht2 : 256 * (t / 2 ^ 8 % 256) + t % 256 = t := by omega
    have hr2 : 16777216 * (r / 2 ^ 24 % 256) + 65536 * (r / 2 ^ 16 % 256) +
        256 * (r / 2 ^ 8 % 256) + r % 256 = r := by omega
    rw [hb, key, ht2, hr2]
  · intro mid fn hmid hfn ps
    have hm : leU32 (udpHeader mid fn) 0 = mid := by
      show mid % 256 + 256 * (mid / 2 ^ 8 % 256) + 65536 * (mid / 2 ^ 16 % 256) +
        16777216 * (mid / 2 ^ 24 % 256) = mid
      omega
    have hf : leU32 (udpHeader mid fn) 4 = fn := by
      show fn % 256 + 256 * (fn / 2 ^ 8 % 256) + 65536 * (fn / 2 ^ 16 % 256) +
        16777216 * (fn / 2 ^ 24 % 256) = fn
      omega
    unfold TelemetryParser.parse_packet
    rw [if_neg (by show ¬ (8 : ℕ) < 8; omega)]
    dsimp only
    rw [hm, hf]
    split
    · rfl
    · split <;> rfl

/-- C7 witness: the TCP round-trip at `(type_id, request_id) = (5, 7)` (a
`GET_TELEMETRY` request) and the UDP round-trip at the telemetry request
header `(3, 0)` — the exact packet `create_request_telemetry_packet`
emits. -/
theorem C7_request_roundtrip_witness :
    NL2TelemetryClient.parse_message (NL2TelemetryClient.build_message 5 7 []) =
        some ⟨5, 7, 0, []⟩ ∧
      (TelemetryParser.parse_packet .init (udpHeader 3 0)).2 = some ⟨3, 0, none⟩ :=
  ⟨C7_request_roundtrip.1 5 7 (by decide) (by decide),
    C7_request_roundtrip.2 3 0 (by decide) (by decide) .init⟩

/-- C8: every TCP telemetry payload that decodes to a frame has
`timestamp = rendered_frame / 60`, `velocity = (0, 0, speed)` with `speed`
the scalar wire float at payload offset 32 (the lateral and vertical
direction is discarded), and `acceleration` equal to the wire g-force
vector scaled componentwise by `9.81`. -/
theorem C8_tcp_frame_synthesis :
    ∀ (d : List ℕ) (st : CoasterState),
      NL2TelemetryClient.parseTelemetryData d = some st →
      ∃ f : NL2TelemetryClient.TcpTelemetry,
        NL2TelemetryClient.decodeTcpTelemetry d = some f ∧
        f.rendered_frame = readI32be d 4 ∧
        readF32be d 32 = some f.speed ∧
        st.timestamp = (f.rendered_frame : ℚ) / 60 ∧
        st.velocity = ⟨0, 0, f.speed⟩ ∧
        st.g_force = ⟨f.gx, f.gy, f.gz⟩ ∧
        st.acceleration =
          ⟨f.gx * (981 / 100), f.gy * (981 / 100), f.gz * (981 / 100)⟩ := by
  intro d st h
  obtain ⟨f, hdec, hst, _⟩ := tcp_parse_inv d st h
  refine ⟨f, hdec, ?_, ?_, by rw [hst]; rfl, by rw [hst]; rfl, by rw [hst]; rfl,
      by rw [hst]; rfl⟩ <;>
    · unfold NL2TelemetryClient.decodeTcpTelemetry at hdec
      split at hdec
      · rename_i heq
        injection hdec with hdec
        subst hdec
        simp_all
      · exact absurd hdec (by simp)

/-- C8 witness: the theorem applied at the all-zero 76-byte TCP payload. -/
theorem C8_tcp_frame_synthesis_witness :
    ∃ f : NL2TelemetryClient.TcpTelemetry,
      NL2TelemetryClient.decodeTcpTelemetry (List.replicate 76 0) = some f ∧
      f.rendered_frame = readI32be (List.replicate 76 0) 4 ∧
      readF32be (List.replicate 76 0) 32 = some f.speed ∧
      zeroTcpState.timestamp = (f.rendered_frame : ℚ) / 60 ∧
      zeroTcpState.velocity = ⟨0, 0, f.speed⟩ ∧
      zeroTcpState.g_force = ⟨f.gx, f.gy, f.gz⟩ ∧
      zeroTcpState.acceleration =
        ⟨f.gx * (981 / 100), f.gy * (981 / 100), f.gz * (981 / 100)⟩ :=
  C8_tcp_frame_synthesis (List.replicate 76 0) zeroTcpState tcp_zero_parse

end NL2
